import Mathlib

/-
Shallow embedding of the manifest/blob/auth logic of the
deno-docker_registry_client repository (src/lib/registry-client-v2.ts,
src/lib/www-authenticate.ts, and the DockerJsonClient transport wrapper),
together with theorems settling the frozen claims about it.

JavaScript values flowing through the client (parsed JSON response bodies,
ad-hoc error objects) are modelled by the `Json` type below.  Property
access on `undefined`/`null` throws a TypeError in JavaScript; here `jsGet`
totalises it to `.undefined`, and every code path we reason about guards
the access exactly as the source does, so the divergence is confined to
crash paths that are modelled explicitly where they matter (see `GMResult.crash`).
-/

/-- JavaScript values as seen by the client: parsed JSON plus `undefined`. -/
inductive Json where
  | undefined
  | null
  | bool (b : Bool)
  | num (n : Int)
  | str (s : String)
  | arr (elems : List Json)
  | obj (fields : List (String × Json))

/-- First binding of a key in an object literal.  The JSON parser keeps the
last duplicate key; the bodies we reason about have distinct keys, so first
and last lookup agree. -/
def Json.lookupField : List (String × Json) → String → Json
  | [], _ => .undefined
  | (k, v) :: rest, key => if k = key then v else Json.lookupField rest key

/-- JavaScript property access `x[key]`.  Arrays and strings expose a
`length` property; anything else yields `undefined`. -/
def jsGet (j : Json) (key : String) : Json :=
  match j with
  | .obj fields => Json.lookupField fields key
  | .arr elems => if key = "length" then .num elems.length else .undefined
  | .str s => if key = "length" then .num s.length else .undefined
  | _ => .undefined

/-- JavaScript truthiness. -/
def jsTruthy : Json → Bool
  | .undefined => false
  | .null => false
  | .bool b => b
  | .num n => decide (n ≠ 0)
  | .str s => decide (s ≠ "")
  | .arr _ => true
  | .obj _ => true

/-- `Array.isArray`. -/
def jsIsArray : Json → Bool
  | .arr _ => true
  | _ => false

/-- JavaScript `x[0]` (also covering optional chaining `x?.[0]`). -/
def jsIndex0 : Json → Json
  | .arr [] => .undefined
  | .arr (x :: _) => x
  | .obj fields => Json.lookupField fields "0"
  | _ => .undefined

/-- JavaScript nullish coalescing `a ?? b`. -/
def jsNullish (a b : Json) : Json :=
  match a with
  | .undefined => b
  | .null => b
  | _ => a

/-- JavaScript strict equality `===`.  On object/array operands `===` is
reference equality; the translated code only applies it to primitives
(media-type strings, `length` values, `schemaVersion` numbers), where the
structural comparison below coincides with JavaScript. -/
def jsStrictEq : Json → Json → Bool
  | .undefined, .undefined => true
  | .null, .null => true
  | .bool a, .bool b => a = b
  | .num a, .num b => a = b
  | .str a, .str b => a = b
  | _, _ => false

/-- JavaScript string conversion (`String(x)`, string concatenation, and
`x.toString()`): objects render as `[object Object]`, arrays join their
elements with commas (eliding `null`/`undefined`). -/
def jsToString : Json → String
  | .undefined => "undefined"
  | .null => "null"
  | .bool true => "true"
  | .bool false => "false"
  | .num n => toString n
  | .str s => s
  | .obj _ => "[object Object]"
  | .arr elems => String.intercalate "," (jsToStringItems elems)
where
  jsToStringItems : List Json → List String
  | [] => []
  | .undefined :: rest => "" :: jsToStringItems rest
  | .null :: rest => "" :: jsToStringItems rest
  | e :: rest => jsToString e :: jsToStringItems rest

/-- `manifest.schemaVersion > maxSchemaVersion` — JavaScript `>` between a
number and a number; non-numeric operands compare as NaN, i.e. false. -/
def jsNumGtNat (j : Json) (m : Nat) : Bool :=
  match j with
  | .num n => decide ((m : Int) < n)
  | _ => false

/-- `x === "literal"` for a string literal. -/
def Json.strEq (j : Json) (s : String) : Bool :=
  match j with
  | .str t => t = s
  | _ => false

def isNullish : Json → Bool
  | .undefined => true
  | .null => true
  | _ => false

/-
registry-client-v2.ts, `_getRegistryErrorMessage(err)`: ordered extraction
attempts over a parsed-JSON/error value.  The third branch of the source
reads `err.errors[0].message` without first checking `err.errors[0]`; on an
empty `errors` array JavaScript would throw, which the totalised `jsGet`
renders as `undefined` (falsy), a divergence confined to that crash corner.
The returned value is a JavaScript value (the final fallback is
`err.toString()`, a string).
-/
def _getRegistryErrorMessage (err : Json) : Json :=
  let body := jsGet err "body"
  if jsTruthy body && jsIsArray (jsGet body "errors") && jsTruthy (jsIndex0 (jsGet body "errors")) then
    jsGet (jsIndex0 (jsGet body "errors")) "message"
  else if jsTruthy body && jsTruthy (jsGet body "details") then
    jsGet body "details"
  else if jsIsArray (jsGet err "errors") && jsTruthy (jsGet (jsIndex0 (jsGet err "errors")) "message") then
    jsGet (jsIndex0 (jsGet err "errors")) "message"
  else if jsTruthy (jsGet err "message") then
    jsGet err "message"
  else
    .str (jsToString err)

/-
docker-json-client.ts, `DockerResponse.dockerError(baseMsg)`: builds the
message of the Error thrown for an unexpected HTTP status.  `body` is the
parsed JSON body (`.null` when parsing failed, matching the
`.catch(() => null)` in the source), `rawText` its decoded text, and
`contentTypeHtml` whether the content-type header starts with `text/html`.
-/
def dockerErrorBodyMsg (status : Nat) (body : Json) (rawText : String) (contentTypeHtml : Bool) : String :=
  let message :=
    if 400 ≤ status then
      let errObj := jsNullish (jsGet body "error") (jsNullish (jsIndex0 (jsGet body "errors")) body)
      if jsTruthy (jsGet errObj "code") || jsTruthy (jsGet errObj "message") then
        let restCode := if jsTruthy (jsGet errObj "code") then jsToString (jsGet errObj "code") else ""
        let restText := if jsTruthy (jsGet errObj "message") then jsToString (jsGet errObj "message") else ""
        if restCode ≠ "" && restText ≠ "" then "(" ++ restCode ++ ") " ++ restText else ""
      else ""
    else ""
  if message = "" then
    if contentTypeHtml then "(HTML body)" else rawText.take 1024
  else message

/-- docker-json-client.ts, `DockerJsonClient.request`: message of the Error
thrown when the response status is not in `expectStatus`. -/
def requestErrMessage (status : Nat) (path : String) (body : Json) (rawText : String) (contentTypeHtml : Bool) : String :=
  "Received unexpected HTTP " ++ toString status ++ " from " ++ path ++ ": " ++
    dockerErrorBodyMsg status body rawText contentTypeHtml

/-
www-authenticate.ts.  `header.split(Separators)` with
`Separators = ([",=])` (a capturing group containing double quote, comma
and equals sign): JavaScript split keeps the captured separators and the
(possibly empty) chunks between them.
-/
def isSepChar (c : Char) : Bool := c = '"' || c = ',' || c = '='

def splitSepsAux : List Char → List Char → List String
  | [], acc => [String.mk acc.reverse]
  | c :: rest, acc =>
    if isSepChar c then String.mk acc.reverse :: String.mk [c] :: splitSepsAux rest []
    else splitSepsAux rest (c :: acc)

def splitSeps (s : String) : List String := splitSepsAux s.data []

/-- Whitespace characters of the regex class `\s` and of
`String.prototype.trim` (the ASCII ones; header values never contain the
exotic Unicode spaces). -/
def isWsChar (c : Char) : Bool :=
  c = ' ' || c = '\t' || c = '\n' || c = '\r' || c = '\x0b' || c = '\x0c'

/-- JavaScript `tok.trim()`: strips whitespace from both ends. -/
def jsTrim (s : String) : String :=
  String.mk (((s.data.dropWhile isWsChar).reverse.dropWhile isWsChar).reverse)

/-- JavaScript object assignment `parms[key] = value`: overwrites in place,
keeping the original insertion position of an existing key. -/
def setParm : List (String × String) → String → String → List (String × String)
  | [], k, v => [(k, v)]
  | (k0, v0) :: rest, k, v =>
    if k0 = k then (k0, v) :: rest else (k0, v0) :: setParm rest k v

/-
www-authenticate.ts, `Parser.parse_params`: the token state machine.
States: 0 token, 1 expect equals, 2 expect value, 3 quoted string,
8 end quote encountered, 9 expect comma.  Returns the parameter map as
mutated so far together with the error (`none` on success), exactly as the
source method leaves `this.parms` and returns the error string.
-/
def parseParamsLoop : List String → Nat → String → String → List (String × String) →
    (List (String × String)) × Option String
  | [], state, key, value, parms =>
    if state = 0 || state = 9 then (parms, none)
    else if state = 8 then (setParm parms key value, none)
    else (parms, some "Unexpected end of www-authenticate value.")
  | tok :: rest, state, key, value, parms =>
    if tok.length = 0 then parseParamsLoop rest state key value parms
    else if state = 0 then
      parseParamsLoop rest 1 (jsTrim tok) value parms
    else if state = 1 then
      if tok ≠ "=" then (parms, some ("Equal sign was expected after " ++ key))
      else parseParamsLoop rest 2 key value parms
    else if state = 2 then
      if tok = "\"" then parseParamsLoop rest 3 key "" parms
      else parseParamsLoop rest 9 key (jsTrim tok) (setParm parms key (jsTrim tok))
    else if state = 3 then
      if tok = "\"" then parseParamsLoop rest 8 key value parms
      else parseParamsLoop rest 3 key (value ++ tok) parms
    else if state = 8 then
      if tok = "\"" then parseParamsLoop rest 3 key (value ++ "\"") parms
      else if tok = "," then parseParamsLoop rest 0 key value (setParm parms key value)
      else (parms, some ("Unexpected token (" ++ tok ++ ") after " ++ value ++ "\""))
    else
      if tok ≠ "," then (parms, some ("Comma expected after " ++ value))
      else parseParamsLoop rest 0 key value parms

def parse_params (header : String) : (List (String × String)) × Option String :=
  parseParamsLoop (splitSeps header) 0 "" "" []

/-- Word characters of the regex class `\w`. -/
def isWordChar (c : Char) : Bool := c.isAlpha || c.isDigit || c = '_'

/-
www-authenticate.ts, `ParseAuth = (\w+)\s+(.*)`: an unanchored search.
Since word and whitespace characters are disjoint, greedy `\w+` never
gives characters back, so the regex matches at the first maximal run of
word characters that is immediately followed by a whitespace character;
the first group is that run, `\s+` greedily eats the whitespace run, and
`.*` takes the rest of the string (header values contain no line
terminators).  `runAcc` holds, reversed, the word run ending just before
the current position (empty when the previous character was not a word
character).  Returns `none` when the regex does not match (JavaScript
`match` yields `null`).
-/
def parseAuthScan : List Char → List Char → Option (String × String)
  | [], _ => none
  | c :: rest, runAcc =>
    if isWordChar c then parseAuthScan rest (c :: runAcc)
    else if isWsChar c ∧ runAcc ≠ [] then
      some (String.mk runAcc.reverse, String.mk (rest.dropWhile isWsChar))
    else parseAuthScan rest []

def parseAuthSearch (l : List Char) : Option (String × String) := parseAuthScan l []

/-- Outcome of `new Parse_WWW_Authenticate(header)`: either the TypeError
thrown when the scheme/params regex match is `null` and dereferenced via
the non-null assertion, or a constructed object with scheme, parameter map
and optional error field. -/
inductive WWWAuth where
  | thrown
  | parsed (scheme : String) (parms : List (String × String)) (err : Option String)
deriving Repr, DecidableEq

/-- www-authenticate.ts, `Parse_WWW_Authenticate` constructor: on a parse
error the scheme is reset to the empty string and the parameter map to the
empty object. -/
def Parse_WWW_Authenticate (to_parse : String) : WWWAuth :=
  match parseAuthSearch to_parse.data with
  | none => .thrown
  | some (scheme, paramsStr) =>
    match parse_params paramsStr with
    | (_, some e) => .parsed "" [] (some e)
    | (parms, none) => .parsed scheme parms none

/- ---------------------------------------------------------------- -/
/- registry-client-v2.ts: RegistryClientV2 manifest retrieval       -/
/- ---------------------------------------------------------------- -/

def MEDIATYPE_MANIFEST_V2 : String :=
  "application/vnd.docker.distribution.manifest.v2+json"
def MEDIATYPE_MANIFEST_LIST_V2 : String :=
  "application/vnd.docker.distribution.manifest.list.v2+json"

/-- `RegistryClientV2` constructor: `this.maxSchemaVersion = opts.maxSchemaVersion || 1`
(both `undefined` and `0` are falsy and coerce to the default `1`). -/
def constructorMaxSchemaVersion (optsMaxSchemaVersion : Option Nat) : Nat :=
  match optsMaxSchemaVersion with
  | some m => if m = 0 then 1 else m
  | none => 1

/-- `getManifest`: `opts.maxSchemaVersion ?? this.maxSchemaVersion` (nullish,
not falsy: an explicit per-call `0` is kept). -/
def effectiveMaxSchemaVersion (callOpt : Option Nat) (clientVal : Nat) : Nat :=
  callOpt.getD clientVal

/-- `getManifest` Accept-header construction: only when the effective
`maxSchemaVersion` is `2` are the schema-2 media types appended to whatever
accept values the client headers already carried. -/
def getManifestAcceptList (baseAccept : Option String) (acceptManifestLists : Bool) : List String :=
  (match baseAccept with | some a => a.splitOn ", " | none => []) ++
    [MEDIATYPE_MANIFEST_V2] ++
    (if acceptManifestLists then [MEDIATYPE_MANIFEST_LIST_V2] else [])

def getManifestAcceptHeader (baseAccept : Option String) (maxSchemaVersion : Nat)
    (acceptManifestLists : Bool) : Option String :=
  if maxSchemaVersion = 2 then
    some (String.intercalate ", " (getManifestAcceptList baseAccept acceptManifestLists))
  else baseAccept

/-- docker-json-client.ts, `request`: when the request headers carry no
accept entry the client default `application/json` is sent. -/
def sentAcceptHeader (requestAccept : Option String) : String :=
  requestAccept.getD "application/json"

/-- The accept header actually sent by `getManifest` through
`DockerJsonClient.request`. -/
def getManifestSentAccept (baseAccept : Option String) (maxSchemaVersion : Nat)
    (acceptManifestLists : Bool) : String :=
  sentAcceptHeader (getManifestAcceptHeader baseAccept maxSchemaVersion acceptManifestLists)

/-- Result of one `getManifest` call, one constructor per exit point of the
source (all thrown values are plain `Error`s there, distinguished by their
message; `crash` is the TypeError from the non-null assertions
`layers!.length` / `manifest.history!.length` when the field is nullish). -/
inductive GMResult where
  | redirect (status : Nat)
  | ok (manifest : Json)
  | notFoundErr (msg : String)
  | httpErr (msg : String)
  | schemaErr (msg : String)
  | historyErr (msg : String)
  | manifestsErr (msg : String)
  | layersErr (msg : String)
  | crash

/-- The trailing `if (!layers || layers.length === 0)` check of
`getManifest`, applied to the layer array selected by the schema-version
dispatch (`fsLayers` for everything except schema version 2, which uses
`layers`). -/
def finishLayersCheck (localName ref : String) (manifest layers : Json) : GMResult :=
  if !jsTruthy layers || jsStrictEq (jsGet layers "length") (.num 0) then
    .layersErr ("no layers in " ++ localName ++ ":" ++ ref ++ " manifest")
  else .ok manifest

/-- `getManifest` lines 1263-1311: schema-version gate and structural
validation of the parsed manifest body (the schemaVersion-1 JWS
verification block in the source is commented out and has no effect). -/
def validateManifestBody (maxSchemaVersion : Nat) (localName ref : String)
    (manifest : Json) : GMResult :=
  if jsNumGtNat (jsGet manifest "schemaVersion") maxSchemaVersion then
    .schemaErr ("unsupported schema version " ++ jsToString (jsGet manifest "schemaVersion") ++
      " in " ++ localName ++ ":" ++ ref ++ " manifest")
  else if Json.strEq (jsGet manifest "mediaType") MEDIATYPE_MANIFEST_LIST_V2 then
    if !jsIsArray (jsGet manifest "manifests") ||
        jsStrictEq (jsGet (jsGet manifest "manifests") "length") (.num 0) then
      .manifestsErr ("no manifests in " ++ localName ++ ":" ++ ref ++ " manifest list")
    else .ok manifest
  else
    if jsStrictEq (jsGet manifest "schemaVersion") (.num 1) then
      if isNullish (jsGet manifest "fsLayers") || isNullish (jsGet manifest "history") then .crash
      else if !jsStrictEq (jsGet (jsGet manifest "fsLayers") "length")
          (jsGet (jsGet manifest "history") "length") then
        .historyErr ("history length not equal to layers length in " ++
          localName ++ ":" ++ ref ++ " manifest")
      else finishLayersCheck localName ref manifest (jsGet manifest "fsLayers")
    else if jsStrictEq (jsGet manifest "schemaVersion") (.num 2) then
      finishLayersCheck localName ref manifest (jsGet manifest "layers")
    else finishLayersCheck localName ref manifest (jsGet manifest "fsLayers")

/-- The layer array `getManifest` effectively checks for a non-list
manifest: `layers` when schemaVersion is (strictly) 2, `fsLayers`
otherwise. -/
def schema2Layers (manifest : Json) : Json :=
  if jsStrictEq (jsGet manifest "schemaVersion") (.num 2) then jsGet manifest "layers"
  else jsGet manifest "fsLayers"

/-
`getManifest` lines 1239-1311, modelled after login has completed: the
manifest GET is issued with
`expectStatus = opts.followRedirects == false ? [200,301,302,307] : [200]`
(a loose `==`, so the `undefined` default selects `[200]` and transparent
redirect following).  An unexpected status makes the transport throw the
`dockerError` Error; the surrounding catch converts a 401 into the
not-found Error, feeding the thrown Error object (whose only consulted
property here is `message`) through `_getRegistryErrorMessage`.
`status`/`body`/`rawText`/`contentTypeHtml` describe the (final) HTTP
response, `path` the request path.
-/
def getManifestCore (followRedirects : Option Bool) (maxSchemaVersion : Nat)
    (localName ref path : String)
    (status : Nat) (body : Json) (rawText : String) (contentTypeHtml : Bool) : GMResult :=
  if status ∈ (if (followRedirects = some false : Bool) then [200, 301, 302, 307] else [200]) then
    if 300 < status ∧ status < 400 then .redirect status
    else validateManifestBody maxSchemaVersion localName ref body
  else if status = 401 then
    .notFoundErr ("Docker registry 401 Not Found: " ++
      jsToString (_getRegistryErrorMessage
        (Json.obj [("message", .str (requestErrMessage status path body rawText contentTypeHtml))])))
  else .httpErr (requestErrMessage status path body rawText contentTypeHtml)

/- ---------------------------------------------------------------- -/
/- registry-client-v2.ts: `_getToken` response handling             -/
/- ---------------------------------------------------------------- -/

/-- Result of the token-endpoint call in `_getToken`, one constructor per
exit point of the response handling. -/
inductive TokenResult where
  | ok (token : String)
  | authFailed (msg : String)
  | protocolError (msg : String)
  | transportErr (msg : String)
deriving Repr, DecidableEq

/-
`_getToken` lines 337-355: the token endpoint is queried with
`expectStatus: [200, 401]` (any other status throws the transport Error);
a 401 throws the auth-failed Error whose message embeds
`_getRegistryErrorMessage` applied to the parsed response body directly;
a 200 yields `body.token` when that is a string and otherwise throws the
missing-token Error.
-/
def getTokenHandleResponse (status : Nat) (body : Json) (rawText : String)
    (contentTypeHtml : Bool) (path : String) : TokenResult :=
  if status ∈ [200, 401] then
    if status = 401 then
      .authFailed ("Registry 401 - Auth failed: " ++
        jsToString (_getRegistryErrorMessage body))
    else
      match jsGet body "token" with
      | .str t => .ok t
      | _ => .protocolError "authorization server did not include a token in the response"
  else .transportErr (requestErrMessage status path body rawText contentTypeHtml)

/- ---------------------------------------------------------------- -/
/- registry-client-v2.ts: `_makeHttpRequest` redirect loop          -/
/- ---------------------------------------------------------------- -/

/-- One HTTP response as observed by the redirect loop. -/
structure RespSpec where
  status : Nat
  location : Option String
deriving Repr, DecidableEq

/-- One request issued by the redirect loop: its path and the headers it
was built with (`none` models an `undefined` headers option, `some []` the
`new Headers` fresh empty set used for redirect hops). -/
structure BlobReq where
  path : String
  headers : Option (List (String × String))
deriving Repr, DecidableEq

inductive LoopOutcome where
  | ok
  | badStatus (status : Nat)
  | tooManyRedirects (maxRedirects : Nat)
deriving Repr, DecidableEq

/-- Observable behaviour of `_makeHttpRequest`: the requests it issued, the
responses it collected in `ress`, and how it exited (`tooManyRedirects`
models the `maximum number of redirects (N) hit` Error, `badStatus` the
transport Error for a status outside `[200, 302, 307]`, thrown before the
response is pushed onto `ress`). -/
structure LoopResult where
  reqs : List BlobReq
  ress : List RespSpec
  outcome : LoopOutcome
deriving Repr, DecidableEq

/-
`_makeHttpRequest` lines 1354-1389: the `while (numRedirs < maxRedirects)`
loop, with `fuel = maxRedirects - numRedirs` remaining iterations.  `env i`
is the response the network gives to the i-th issued request, and
`resolve location path` abstracts `new URL(location, new URL(path, url))`
(the source then requests `loc.href` minus `loc.origin` against a fresh
client for `loc.origin`; the claims do not depend on the URL arithmetic).
Every redirect hop request is built with `headers: new Headers` — a fresh
empty header set.
-/
def makeHttpLoop (env : Nat → RespSpec) (resolve : String → String → String)
    (followRedirects : Bool) (maxRedirects : Nat) :
    Nat → Nat → BlobReq → List BlobReq → List RespSpec → LoopResult
  | 0, _, _, accReqs, accRess => ⟨accReqs, accRess, .tooManyRedirects maxRedirects⟩
  | fuel + 1, idx, req, accReqs, accRess =>
    if (env idx).status ∈ [200, 302, 307] then
      if followRedirects = false then ⟨accReqs ++ [req], accRess ++ [env idx], .ok⟩
      else if ¬((env idx).status = 302 ∨ (env idx).status = 307) then
        ⟨accReqs ++ [req], accRess ++ [env idx], .ok⟩
      else
        match (env idx).location with
        | none => ⟨accReqs ++ [req], accRess ++ [env idx], .ok⟩
        | some loc =>
          makeHttpLoop env resolve followRedirects maxRedirects fuel (idx + 1)
            ⟨resolve loc req.path, some []⟩ (accReqs ++ [req]) (accRess ++ [env idx])
    else ⟨accReqs ++ [req], accRess, .badStatus (env idx).status⟩

/-- `_makeHttpRequest(opts)` with its defaults
`followRedirects = opts.followRedirects ?? true` and
`maxRedirects = opts.maxRedirects ?? 3`. -/
def _makeHttpRequest (env : Nat → RespSpec) (resolve : String → String → String)
    (followRedirects : Option Bool) (maxRedirects : Option Nat)
    (path : String) (headers : Option (List (String × String))) : LoopResult :=
  let fr := followRedirects.getD true
  let mr := maxRedirects.getD 3
  makeHttpLoop env resolve fr mr mr 0 ⟨path, headers⟩ [] []

/- ---------------------------------------------------------------- -/
/- registry-client-v2.ts: login cache                               -/
/- ---------------------------------------------------------------- -/

/-- The `authInfo` record produced by the module-level `login` function. -/
structure AuthInfoV where
  token : Option String := none
  username : Option String := none
  password : Option String := none
deriving Repr, DecidableEq

def truthyOpt : Option String → Bool
  | some s => s ≠ ""
  | none => false

/-- `_basicAuthHeader`; `btoa` is the platform base64 encoder, supplied as
an environment parameter. -/
def _basicAuthHeader (btoa : String → String) (username password : String) : String :=
  "Basic " ++ btoa (username ++ ":" ++ password)

def setHeader (hs : List (String × String)) (k v : String) : List (String × String) :=
  setParm hs k v

def deleteHeader (hs : List (String × String)) (k : String) : List (String × String) :=
  hs.filter (fun p => p.1 ≠ k)

/-- `_setAuthHeaderFromAuthInfo`: Bearer if a token is present, else Basic
if a username or password is present, else the authorization header is
removed. -/
def _setAuthHeaderFromAuthInfo (btoa : String → String)
    (headers : List (String × String)) (authInfo : AuthInfoV) : List (String × String) :=
  if truthyOpt authInfo.token then
    setHeader headers "authorization" ("Bearer " ++ authInfo.token.getD "")
  else if truthyOpt authInfo.username || truthyOpt authInfo.password then
    setHeader headers "authorization"
      (_basicAuthHeader btoa (authInfo.username.getD "") (authInfo.password.getD ""))
  else deleteHeader headers "authorization"

def _makeAuthScope (resource name : String) (actions : List String) : String :=
  resource ++ ":" ++ name ++ ":" ++ String.intercalate "," actions

/-- The login-relevant mutable state of a `RegistryClientV2` instance. -/
structure LoginState where
  loggedIn : Bool
  loggedInScope : Option String
  authInfo : Option AuthInfoV
  headers : List (String × String)
deriving Repr, DecidableEq

/-
`RegistryClientV2.login(opts)` lines 1118-1141:
`scope = opts.scope || _makeAuthScope(repository, remoteName, scopes)`
(falsy `||`: an absent or empty scope string selects the default); a cache
hit on `(loggedIn, loggedInScope)` returns without any network activity;
otherwise the module-level `login` (one full network login sequence,
abstracted as `netLogin`, assumed to succeed) runs and the cache and the
authorization header are updated.  The returned Bool records whether the
network login sequence was performed.
-/
def clientLoginScoped (btoa : String → String) (netLogin : String → AuthInfoV)
    (st : LoginState) (scope : String) : LoginState × Bool :=
  if st.loggedIn ∧ st.loggedInScope = some scope then (st, false)
  else
    ({ loggedIn := true, loggedInScope := some scope, authInfo := some (netLogin scope),
       headers := _setAuthHeaderFromAuthInfo btoa st.headers (netLogin scope) }, true)

def clientLogin (btoa : String → String) (netLogin : String → AuthInfoV)
    (remoteName : String) (clientScopes : List String)
    (st : LoginState) (optScope : Option String) : LoginState × Bool :=
  clientLoginScoped btoa netLogin st
    (match optScope with
     | some s => if s = "" then _makeAuthScope "repository" remoteName clientScopes else s
     | none => _makeAuthScope "repository" remoteName clientScopes)

/-- The list of responses `env idx, env (idx+1), ...` of length `k`
(specification helper for stating which responses the redirect loop
returns). -/
def envSlice (env : Nat → RespSpec) (idx : Nat) : Nat → List RespSpec
  | 0 => []
  | k + 1 => env idx :: envSlice env (idx + 1) k

/- ---------------------------------------------------------------- -/
/- Concrete inputs used by counterexamples and witnesses            -/
/- ---------------------------------------------------------------- -/

/-- A well-formed schema-version-1 manifest body of the shape the quay.io
tests of the repository exercise. -/
def v1QuayManifest : Json :=
  .obj [("schemaVersion", .num 1),
        ("name", .str "coreos/etcd"),
        ("tag", .str "v2.0.0"),
        ("fsLayers", .arr [.obj [("blobSum", .str "sha256:aaa")]]),
        ("history", .arr [.obj [("v1Compatibility", .str "x")]])]

/-- An OCI image-index manifest body whose `manifests` array is empty. -/
def ociIndexEmptyManifest : Json :=
  .obj [("schemaVersion", .num 2),
        ("mediaType", .str "application/vnd.oci.image.index.v1+json"),
        ("manifests", .arr []),
        ("layers", .arr [.obj [("digest", .str "sha256:bbb")]])]

/-- A well-formed schema-2 manifest body with one layer. -/
def v2OkManifest : Json :=
  .obj [("schemaVersion", .num 2),
        ("mediaType", .str "application/vnd.docker.distribution.manifest.v2+json"),
        ("config", .obj [("digest", .str "sha256:cfg")]),
        ("layers", .arr [.obj [("digest", .str "sha256:abc")]])]

/-- A 401 token-endpoint body of the documented `details` shape. -/
def detailsBody401 : Json := .obj [("details", .str "incorrect username or password")]

/-- A network that answers the first three requests with a redirect and the
fourth with a success. -/
def chain3Env : Nat → RespSpec :=
  fun i => if i < 3 then ⟨302, some "https://cdn.example/blob"⟩ else ⟨200, none⟩

/-- A network that answers the first request with a redirect and the second
with a success. -/
def chain1Env : Nat → RespSpec :=
  fun i => if i < 1 then ⟨302, some "https://cdn.example/blob"⟩ else ⟨200, none⟩

/- ---------------------------------------------------------------- -/
/- Helper lemmas                                                    -/
/- ---------------------------------------------------------------- -/

theorem str_data_append (s t : String) : (s ++ t).data = s.data ++ t.data := rfl

theorem str_append_ne_left (s t : String) (hs : s ≠ "") : s ++ t ≠ "" := by
  intro he
  apply hs
  have hd : s.data ++ t.data = [] := by
    have h2 := congrArg String.data he
    rwa [str_data_append] at h2
  have h3 := (List.append_eq_nil).mp hd
  cases s with
  | mk d =>
    simp only at h3
    rw [show d = [] from h3.1]

theorem str_append_ne_right (s t : String) (ht : t ≠ "") : s ++ t ≠ "" := by
  intro he
  apply ht
  have hd : s.data ++ t.data = [] := by
    have h2 := congrArg String.data he
    rwa [str_data_append] at h2
  have h3 := (List.append_eq_nil).mp hd
  cases t with
  | mk d =>
    simp only at h3
    rw [show d = [] from h3.2]

/-- Every error string `parse_params` can return is non-empty. -/
theorem parseParamsLoop_err_nonempty :
    ∀ toks state key value parms e,
      (parseParamsLoop toks state key value parms).2 = some e → e ≠ "" := by
  intro toks
  induction toks with
  | nil =>
    intro state key value parms e h
    simp only [parseParamsLoop] at h
    split at h
    · simp at h
    · split at h
      · simp at h
      · simp at h
        subst h
        decide
  | cons tok rest ih =>
    intro state key value parms e h
    simp only [parseParamsLoop] at h
    repeat' split at h
    all_goals first
      | exact ih _ _ _ _ _ h
      | (simp at h; subst h; exact str_append_ne_left _ _ (by decide))
      | (simp at h; subst h; exact str_append_ne_right _ _ (by decide))

/- ---------------------------------------------------------------- -/
/- Claim theorems                                                   -/
/- ---------------------------------------------------------------- -/

/-- C9 counterexample: the header `Bearer a=b,` carries a dangling
(terminal) comma, yet `Parse_WWW_Authenticate` reports no error and fully
populates the parameter map — the state machine explicitly ignores a
terminal comma (terminal state 0), refuting the claim that every dangling
comma yields a non-empty parse error with an empty parameter map. -/
theorem C9_counterexample :
    Parse_WWW_Authenticate "Bearer a=b," = .parsed "Bearer" [("a", "b")] none := rfl

/-- C9 (amended): whenever the challenge parser does report an error —
it does for a missing equals sign and for an unterminated quoted value,
though not for a dangling terminal comma — the error string is non-empty
and the constructed object carries an empty parameter map and an empty
scheme, never partially populated parameters. -/
theorem C9_amended :
    (∀ header scheme parms e,
        Parse_WWW_Authenticate header = .parsed scheme parms (some e) →
        e ≠ "" ∧ parms = [] ∧ scheme = "") ∧
    Parse_WWW_Authenticate "Bearer realm,service=reg" =
      .parsed "" [] (some "Equal sign was expected after realm") ∧
    Parse_WWW_Authenticate "Bearer realm=\"abc" =
      .parsed "" [] (some "Unexpected end of www-authenticate value.") := by
  refine ⟨?_, rfl, rfl⟩
  intro header scheme parms e h
  unfold Parse_WWW_Authenticate at h
  split at h
  · simp at h
  · rename_i sch ps hps
    split at h
    next x e0 heq =>
      injection h with h1 h2 h3
      injection h3 with h4
      subst h4
      refine ⟨?_, h2.symm, h1.symm⟩
      have h5 : (parse_params ps).2 = some e0 := by rw [heq]
      exact parseParamsLoop_err_nonempty _ _ _ _ _ _ h5
    next prms heq =>
      injection h with h1 h2 h3
      simp at h3

/-- C9 witness: the general part of the amended theorem applied to a
concrete erroring header. -/
theorem C9_amended_witness :
    "Equal sign was expected after realm" ≠ "" ∧
    ([] : List (String × String)) = [] ∧ "" = "" :=
  C9_amended.1 "Bearer realm,service=reg" "" []
    "Equal sign was expected after realm" rfl

/-- C10: a well-formed challenge consisting of a bare scheme with no
parameters, such as `Basic`, does not match the scheme/params regex
`(\w+)\s+(.*)` (there is no whitespace), so the `match` result is `null`
and the non-null assertion dereference in the `Parse_WWW_Authenticate`
constructor throws an uncaught TypeError instead of producing a parsed
challenge or a recorded `err` — login against such a registry fails with
that exception. -/
theorem C10_bare_scheme_throws :
    parseAuthSearch "Basic".data = none ∧
    Parse_WWW_Authenticate "Basic" = WWWAuth.thrown := ⟨rfl, rfl⟩

/-- C8 counterexample: a 401 token-endpoint response whose body has the
documented `details` shape is not unwrapped — `_getToken` feeds the parsed
body (not a wrapper with a `body` property) to `_getRegistryErrorMessage`,
whose `details` branch requires `err.body.details`, so the surfaced
message is the object`s generic string rendering rather than the server
message. -/
theorem C8_counterexample :
    getTokenHandleResponse 401 detailsBody401 "" false "/token" =
      .authFailed "Registry 401 - Auth failed: [object Object]" ∧
    "Registry 401 - Auth failed: [object Object]" ≠
      "Registry 401 - Auth failed: incorrect username or password" :=
  ⟨rfl, by decide⟩

/-- C8 (amended): with the expected statuses 200 and 401, the token call
succeeds exactly on a 200 whose body carries a string `token` field,
yielding that token; a 401 is an authentication failure whose message is
unwrapped from the `errors[0].message` JSON shape (a bare `details` body is
not unwrapped); a 200 without a string `token` field is the fatal
missing-token protocol error. -/
theorem C8_amended (status : Nat) (body : Json) (rawText pathS : String) (html : Bool)
    (hst : status = 200 ∨ status = 401) :
    ((∃ t, getTokenHandleResponse status body rawText html pathS = .ok t) ↔
        (status = 200 ∧ ∃ t, jsGet body "token" = .str t)) ∧
    (status = 401 → getTokenHandleResponse status body rawText html pathS =
        .authFailed ("Registry 401 - Auth failed: " ++ jsToString (_getRegistryErrorMessage body))) ∧
    (∀ code m tl, body = .obj [("errors", .arr (.obj [("code", .str code), ("message", .str m)] :: tl))] →
        m ≠ "" → status = 401 →
        getTokenHandleResponse status body rawText html pathS =
          .authFailed ("Registry 401 - Auth failed: " ++ m)) ∧
    (status = 200 → ∀ t, jsGet body "token" = .str t →
        getTokenHandleResponse status body rawText html pathS = .ok t) ∧
    (status = 200 → (∀ t, jsGet body "token" ≠ .str t) →
        getTokenHandleResponse status body rawText html pathS =
          .protocolError "authorization server did not include a token in the response") := by
  refine ⟨?_, ?_, ?_, ?_, ?_⟩
  · constructor
    · intro ⟨t, ht⟩
      rcases hst with h200 | h401
      · subst h200
        refine ⟨rfl, t, ?_⟩
        unfold getTokenHandleResponse at ht
        simp only [show ((200 : Nat) ∈ [200, 401]) = True by simp, if_true] at ht
        simp at ht
        split at ht
        · injection ht with h1
          subst h1
          assumption
        · simp at ht
      · subst h401
        unfold getTokenHandleResponse at ht
        simp at ht
    · intro ⟨h200, t, htok⟩
      subst h200
      refine ⟨t, ?_⟩
      unfold getTokenHandleResponse
      simp
      rw [htok]
  · intro h401
    subst h401
    rfl
  · intro code m tl hb hm h401
    subst h401
    subst hb
    unfold getTokenHandleResponse
    simp only [show ((401 : Nat) ∈ [200, 401]) = True by simp, if_true, if_pos rfl]
    have hmsg : _getRegistryErrorMessage
        (Json.obj [("errors", Json.arr (Json.obj [("code", Json.str code), ("message", Json.str m)] :: tl))]) =
        Json.str m := by
      unfold _getRegistryErrorMessage
      simp [jsGet, Json.lookupField, jsTruthy, jsIsArray, jsIndex0, hm]
    rw [hmsg]
    rfl
  · intro h200 t htok
    subst h200
    unfold getTokenHandleResponse
    simp
    rw [htok]
  · intro h200 hnone
    subst h200
    unfold getTokenHandleResponse
    cases hj : jsGet body "token" with
    | str t => exact absurd hj (hnone t)
    | undefined => simp [hj]
    | null => simp [hj]
    | bool b => simp [hj]
    | num n => simp [hj]
    | arr a => simp [hj]
    | obj o => simp [hj]

/-- C8 witness: the amended theorem applied to a concrete 200 response
carrying a string token. -/
theorem C8_amended_witness :
    getTokenHandleResponse 200 (Json.obj [("token", Json.str "tok123")]) "" false "/token" =
      .ok "tok123" :=
  (C8_amended 200 (Json.obj [("token", Json.str "tok123")]) "" "/token" false
    (Or.inl rfl)).2.2.2.1 rfl "tok123" rfl

/-- On an error body of the standard registry shape
`errors: [ (code, message), ... ]` with both fields non-empty,
`dockerError` produces the unwrapped `(code) message` rendering. -/
theorem dockerErrorBodyMsg_errors_shape (status : Nat) (hst : 400 ≤ status)
    (code msg rawText : String) (html : Bool) (tl : List Json)
    (hc : code ≠ "") (hm : msg ≠ "") :
    dockerErrorBodyMsg status
      (Json.obj [("errors", Json.arr (Json.obj [("code", Json.str code), ("message", Json.str msg)] :: tl))])
      rawText html = "(" ++ code ++ ") " ++ msg := by
  have hne : ("(" ++ code ++ ") ") ++ msg ≠ "" := str_append_ne_right _ _ hm
  unfold dockerErrorBodyMsg
  rw [if_pos hst]
  simp [jsGet, Json.lookupField, jsNullish, jsIndex0, jsTruthy, jsToString, hc, hm, hne]

/-- `_getRegistryErrorMessage` applied to an Error object (a `message`
property and no `body`/`errors`) returns that message. -/
theorem getRegistryErrorMessage_error_object (m : String) (hm : m ≠ "") :
    _getRegistryErrorMessage (Json.obj [("message", Json.str m)]) = Json.str m := by
  unfold _getRegistryErrorMessage
  simp [jsGet, Json.lookupField, jsTruthy, jsIsArray, jsIndex0, hm]

/-- C2: with login already completed, a 401 on the manifest GET itself
(expected statuses are `[200]`, so the transport throws) is converted by
`getManifest` into the not-found Error — not an authentication error — and
its message carries the unwrapped server error message from the
`errors[0]` JSON shape. -/
theorem C2_manifest401_not_found (maxS : Nat) (localName ref path rawText : String)
    (html : Bool) (code msg : String) (tl : List Json) (hc : code ≠ "") (hm : msg ≠ "") :
    getManifestCore none maxS localName ref path 401
        (Json.obj [("errors", Json.arr (Json.obj [("code", Json.str code), ("message", Json.str msg)] :: tl))])
        rawText html =
      GMResult.notFoundErr ("Docker registry 401 Not Found: " ++
        ("Received unexpected HTTP " ++ toString 401 ++ " from " ++ path ++ ": " ++
          ("(" ++ code ++ ") " ++ msg))) := by
  have hbase : requestErrMessage 401 path
      (Json.obj [("errors", Json.arr (Json.obj [("code", Json.str code), ("message", Json.str msg)] :: tl))])
      rawText html =
      "Received unexpected HTTP " ++ toString 401 ++ " from " ++ path ++ ": " ++
        ("(" ++ code ++ ") " ++ msg) := by
    unfold requestErrMessage
    rw [dockerErrorBodyMsg_errors_shape 401 (by omega) code msg rawText html tl hc hm]
  have hne : requestErrMessage 401 path
      (Json.obj [("errors", Json.arr (Json.obj [("code", Json.str code), ("message", Json.str msg)] :: tl))])
      rawText html ≠ "" := by
    rw [hbase]
    exact str_append_ne_right _ _ (str_append_ne_right _ _ hm)
  unfold getManifestCore
  rw [if_neg (by simp)]
  rw [if_pos rfl]
  rw [getRegistryErrorMessage_error_object _ hne]
  rw [hbase]
  rfl

/-- C2 witness: the theorem at a concrete repository, path and server
error body. -/
theorem C2_witness :
    getManifestCore none 2 "library/idontexist" "latest" "/v2/library/idontexist/manifests/latest" 401
        (Json.obj [("errors", Json.arr (Json.obj [("code", Json.str "UNAUTHORIZED"), ("message", Json.str "authentication required")] :: []))])
        "" false =
      GMResult.notFoundErr ("Docker registry 401 Not Found: " ++
        ("Received unexpected HTTP " ++ toString 401 ++ " from " ++ "/v2/library/idontexist/manifests/latest" ++ ": " ++
          ("(" ++ "UNAUTHORIZED" ++ ") " ++ "authentication required"))) :=
  C2_manifest401_not_found 2 "library/idontexist" "latest" "/v2/library/idontexist/manifests/latest"
    "" false "UNAUTHORIZED" "authentication required" [] (by decide) (by decide)

/-- A 200 response always reaches the validation step, for either value of
the redirect option. -/
theorem getManifestCore_200 (fr : Option Bool) (maxS : Nat) (localName ref path rawText : String)
    (html : Bool) (body : Json) :
    getManifestCore fr maxS localName ref path 200 body rawText html =
      validateManifestBody maxS localName ref body := by
  unfold getManifestCore
  rw [if_pos]
  · rw [if_neg (by omega)]
  · split <;> simp

/-- The constructor default/coercion always yields a maxSchemaVersion of at
least 1. -/
theorem one_le_constructorMaxSchemaVersion (o : Option Nat) :
    1 ≤ constructorMaxSchemaVersion o := by
  cases o with
  | none => simp [constructorMaxSchemaVersion]
  | some m =>
    simp only [constructorMaxSchemaVersion]
    split <;> omega

/-- A schemaVersion-1 manifest never trips the unsupported-schema check
when the bound is at least 1. -/
theorem validate_sv1_not_schemaErr (maxS : Nat) (hmax : 1 ≤ maxS)
    (localName ref : String) (body : Json)
    (h1 : jsGet body "schemaVersion" = .num 1) :
    ∀ m, validateManifestBody maxS localName ref body ≠ .schemaErr m := by
  intro m hcontra
  unfold validateManifestBody at hcontra
  rw [h1] at hcontra
  rw [show jsNumGtNat (Json.num 1) maxS = false by simp [jsNumGtNat]; omega] at hcontra
  simp only [Bool.false_eq_true, if_false] at hcontra
  split at hcontra
  · split at hcontra
    · simp at hcontra
    · simp at hcontra
  · split at hcontra
    · split at hcontra
      · simp at hcontra
      · split at hcontra
        · simp at hcontra
        · unfold finishLayersCheck at hcontra
          split at hcontra <;> simp at hcontra
    · split at hcontra
      · unfold finishLayersCheck at hcontra
        split at hcontra <;> simp at hcontra
      · unfold finishLayersCheck at hcontra
        split at hcontra <;> simp at hcontra

/-- C1 counterexample: with the client default configuration
(`maxSchemaVersion` absent, coerced to 1) a manifest whose body has
schemaVersion 1 — with matching non-empty `fsLayers`/`history` — is
returned by `getManifest`, not rejected: the only schema gate is
`manifest.schemaVersion > maxSchemaVersion`, and `1 > 1` is false.  This
refutes the claim that schema-version-1 manifests are always rejected as
unsupported. -/
theorem C1_counterexample :
    getManifestCore none (constructorMaxSchemaVersion none) "coreos/etcd" "v2.0.0"
        "/v2/coreos/etcd/manifests/v2.0.0" 200 v1QuayManifest "" false =
      GMResult.ok v1QuayManifest ∧
    jsGet v1QuayManifest "schemaVersion" = Json.num 1 := ⟨rfl, rfl⟩

/-- C1 (amended): `getManifest` raises the unsupported-schema-version
error exactly when the manifest schemaVersion exceeds the effective
maxSchemaVersion; since the constructor coerces an absent or zero
configuration to 1, a schemaVersion-1 manifest is never rejected as
unsupported under the client-configured bound (it is validated and, when
well-formed, returned). -/
theorem C1_amended :
    (∀ (optsMax : Option Nat) (fr : Option Bool) (localName ref path rawText : String)
        (html : Bool) (body : Json),
      jsGet body "schemaVersion" = Json.num 1 →
      ∀ m, getManifestCore fr (constructorMaxSchemaVersion optsMax) localName ref path
          200 body rawText html ≠ GMResult.schemaErr m) ∧
    (∀ (maxS : Nat) (localName ref : String) (body : Json) (sv : Int),
      jsGet body "schemaVersion" = Json.num sv → (maxS : Int) < sv →
      validateManifestBody maxS localName ref body =
        GMResult.schemaErr ("unsupported schema version " ++ toString sv ++
          " in " ++ localName ++ ":" ++ ref ++ " manifest")) := by
  constructor
  · intro optsMax fr localName ref path rawText html body h1 m
    rw [getManifestCore_200]
    exact validate_sv1_not_schemaErr _ (one_le_constructorMaxSchemaVersion optsMax)
      localName ref body h1 m
  · intro maxS localName ref body sv hsv hlt
    unfold validateManifestBody
    rw [hsv]
    rw [if_pos (by simp [jsNumGtNat]; omega)]
    rfl

/-- C1 witness: the general amended statement applied at the concrete
schema-1 manifest and default configuration. -/
theorem C1_amended_witness :
    getManifestCore none (constructorMaxSchemaVersion none) "coreos/etcd" "v2.0.0"
        "/v2/coreos/etcd/manifests/v2.0.0" 200 v1QuayManifest "" false ≠
      GMResult.schemaErr "unsupported schema version 1 in coreos/etcd:v2.0.0 manifest" :=
  C1_amended.1 none none "coreos/etcd" "v2.0.0" "/v2/coreos/etcd/manifests/v2.0.0" "" false
    v1QuayManifest rfl "unsupported schema version 1 in coreos/etcd:v2.0.0 manifest"

/-- A `===` comparison against a number literal pins the compared value. -/
theorem jsStrictEq_num_eq {j : Json} {n : Int} (h : jsStrictEq j (Json.num n) = true) :
    j = Json.num n := by
  cases j <;> simp_all [jsStrictEq]

/-- C3 counterexample: an OCI image-index manifest (media type
`application/vnd.oci.image.index.v1+json`) with an empty `manifests` array
is accepted and returned by `getManifest` — the source compares the media
type only against the Docker manifest-list constant, so an index body
falls into the layers branch and passes when a non-empty `layers` value is
present.  This refutes the claim for the "index" half of "list/index" and
shows a returned manifest can violate the non-emptiness invariant. -/
theorem C3_counterexample :
    getManifestCore none 2 "r" "t" "/v2/r/manifests/t" 200 ociIndexEmptyManifest "" false =
      GMResult.ok ociIndexEmptyManifest ∧
    jsGet ociIndexEmptyManifest "mediaType" =
      Json.str "application/vnd.oci.image.index.v1+json" ∧
    jsGet ociIndexEmptyManifest "manifests" = Json.arr [] := ⟨rfl, rfl, rfl⟩

/-- C3 (amended): the list check applies exactly to the Docker
manifest-list media type.  Every manifest returned by `getManifest`
satisfies: if its media type is the Docker manifest-list type its
`manifests` field is a non-empty array, and otherwise its effective layer
array (`layers` for schemaVersion 2, `fsLayers` otherwise) is truthy with
non-zero length; and a Docker manifest-list whose `manifests` field is
missing, non-array or empty is rejected with the no-manifests
invalid-content error (when it passes the schema gate). -/
theorem C3_amended :
    (∀ (maxS : Nat) (localName ref : String) (body m : Json),
      validateManifestBody maxS localName ref body = GMResult.ok m →
      m = body ∧
      (Json.strEq (jsGet body "mediaType") MEDIATYPE_MANIFEST_LIST_V2 = true →
        jsIsArray (jsGet body "manifests") = true ∧
        jsStrictEq (jsGet (jsGet body "manifests") "length") (Json.num 0) = false) ∧
      (Json.strEq (jsGet body "mediaType") MEDIATYPE_MANIFEST_LIST_V2 = false →
        jsTruthy (schema2Layers body) = true ∧
        jsStrictEq (jsGet (schema2Layers body) "length") (Json.num 0) = false)) ∧
    (∀ (maxS : Nat) (localName ref : String) (body : Json),
      jsNumGtNat (jsGet body "schemaVersion") maxS = false →
      Json.strEq (jsGet body "mediaType") MEDIATYPE_MANIFEST_LIST_V2 = true →
      (!jsIsArray (jsGet body "manifests") ||
        jsStrictEq (jsGet (jsGet body "manifests") "length") (Json.num 0)) = true →
      validateManifestBody maxS localName ref body =
        GMResult.manifestsErr ("no manifests in " ++ localName ++ ":" ++ ref ++ " manifest list")) := by
  constructor
  · intro maxS localName ref body m h
    unfold validateManifestBody at h
    by_cases hgt : jsNumGtNat (jsGet body "schemaVersion") maxS = true
    · rw [if_pos hgt] at h
      simp at h
    · rw [if_neg hgt] at h
      by_cases hmt : Json.strEq (jsGet body "mediaType") MEDIATYPE_MANIFEST_LIST_V2 = true
      · rw [if_pos hmt] at h
        by_cases hlist : (!jsIsArray (jsGet body "manifests") ||
            jsStrictEq (jsGet (jsGet body "manifests") "length") (Json.num 0)) = true
        · rw [if_pos hlist] at h
          simp at h
        · rw [if_neg hlist] at h
          injection h with h1
          subst h1
          simp at hlist
          exact ⟨rfl, fun _ => hlist, fun hc => absurd hmt (by simp [hc])⟩
      · rw [if_neg hmt] at h
        have hmt2 : Json.strEq (jsGet body "mediaType") MEDIATYPE_MANIFEST_LIST_V2 = false := by
          simpa using hmt
        by_cases hsv1 : jsStrictEq (jsGet body "schemaVersion") (Json.num 1) = true
        · rw [if_pos hsv1] at h
          by_cases hnul : (isNullish (jsGet body "fsLayers") ||
              isNullish (jsGet body "history")) = true
          · rw [if_pos hnul] at h
            simp at h
          · rw [if_neg hnul] at h
            by_cases hlen : (!jsStrictEq (jsGet (jsGet body "fsLayers") "length")
                (jsGet (jsGet body "history") "length")) = true
            · rw [if_pos hlen] at h
              simp at h
            · rw [if_neg hlen] at h
              unfold finishLayersCheck at h
              by_cases hlay : (!jsTruthy (jsGet body "fsLayers") ||
                  jsStrictEq (jsGet (jsGet body "fsLayers") "length") (Json.num 0)) = true
              · rw [if_pos hlay] at h
                simp at h
              · rw [if_neg hlay] at h
                injection h with h1
                subst h1
                simp at hlay
                have hs2 : schema2Layers body = jsGet body "fsLayers" := by
                  unfold schema2Layers
                  rw [jsStrictEq_num_eq hsv1]
                  simp [jsStrictEq]
                exact ⟨rfl, fun hc => absurd hc (by simp [hmt2]),
                  fun _ => by rw [hs2]; exact hlay⟩
        · rw [if_neg hsv1] at h
          by_cases hsv2 : jsStrictEq (jsGet body "schemaVersion") (Json.num 2) = true
          · rw [if_pos hsv2] at h
            unfold finishLayersCheck at h
            by_cases hlay : (!jsTruthy (jsGet body "layers") ||
                jsStrictEq (jsGet (jsGet body "layers") "length") (Json.num 0)) = true
            · rw [if_pos hlay] at h
              simp at h
            · rw [if_neg hlay] at h
              injection h with h1
              subst h1
              simp at hlay
              have hs2 : schema2Layers body = jsGet body "layers" := by
                unfold schema2Layers
                rw [if_pos hsv2]
              exact ⟨rfl, fun hc => absurd hc (by simp [hmt2]),
                fun _ => by rw [hs2]; exact hlay⟩
          · rw [if_neg hsv2] at h
            unfold finishLayersCheck at h
            by_cases hlay : (!jsTruthy (jsGet body "fsLayers") ||
                jsStrictEq (jsGet (jsGet body "fsLayers") "length") (Json.num 0)) = true
            · rw [if_pos hlay] at h
              simp at h
            · rw [if_neg hlay] at h
              injection h with h1
              subst h1
              simp at hlay
              have hs2 : schema2Layers body = jsGet body "fsLayers" := by
                unfold schema2Layers
                rw [if_neg (by simpa using hsv2)]
              exact ⟨rfl, fun hc => absurd hc (by simp [hmt2]),
                fun _ => by rw [hs2]; exact hlay⟩
  · intro maxS localName ref body hsv hmt hempty
    unfold validateManifestBody
    rw [if_neg (by simp [hsv])]
    rw [if_pos hmt]
    rw [if_pos hempty]

/-- C3 witness: the first part of the amended theorem at a concrete
accepted schema-2 manifest. -/
theorem C3_amended_witness :
    v2OkManifest = v2OkManifest ∧
    (Json.strEq (jsGet v2OkManifest "mediaType") MEDIATYPE_MANIFEST_LIST_V2 = true →
      jsIsArray (jsGet v2OkManifest "manifests") = true ∧
      jsStrictEq (jsGet (jsGet v2OkManifest "manifests") "length") (Json.num 0) = false) ∧
    (Json.strEq (jsGet v2OkManifest "mediaType") MEDIATYPE_MANIFEST_LIST_V2 = false →
      jsTruthy (schema2Layers v2OkManifest) = true ∧
      jsStrictEq (jsGet (schema2Layers v2OkManifest) "length") (Json.num 0) = false) :=
  C3_amended.1 2 "r" "t" v2OkManifest v2OkManifest rfl

/-- Shape of the request list produced by the redirect loop: the
accumulator, then the entry request, then only requests created inside the
loop — all of which carry the fresh empty header set. -/
theorem makeHttpLoop_reqs_shape (env : Nat → RespSpec) (resolve : String → String → String)
    (fr : Bool) (mr : Nat) :
    ∀ fuel idx req accReqs accRess,
      ∃ rest, (makeHttpLoop env resolve fr mr fuel idx req accReqs accRess).reqs = accReqs ++ rest ∧
        (rest = [] ∨ ∃ rest2, rest = req :: rest2 ∧ ∀ q ∈ rest2, q.headers = some []) := by
  intro fuel
  induction fuel with
  | zero =>
    intro idx req accReqs accRess
    exact ⟨[], by simp [makeHttpLoop], Or.inl rfl⟩
  | succ fuel ih =>
    intro idx req accReqs accRess
    unfold makeHttpLoop
    by_cases h1 : (env idx).status ∈ [200, 302, 307]
    · rw [if_pos h1]
      by_cases h2 : fr = false
      · rw [if_pos h2]
        exact ⟨[req], by simp, Or.inr ⟨[], rfl, by simp⟩⟩
      · rw [if_neg h2]
        by_cases h3 : ¬((env idx).status = 302 ∨ (env idx).status = 307)
        · rw [if_pos h3]
          exact ⟨[req], by simp, Or.inr ⟨[], rfl, by simp⟩⟩
        · rw [if_neg h3]
          cases hloc : (env idx).location with
          | none => exact ⟨[req], by simp, Or.inr ⟨[], rfl, by simp⟩⟩
          | some loc =>
            obtain ⟨rest, hr, hcases⟩ := ih (idx + 1) ⟨resolve loc req.path, some []⟩
              (accReqs ++ [req]) (accRess ++ [env idx])
            refine ⟨req :: rest, by simpa using hr, Or.inr ⟨rest, rfl, ?_⟩⟩
            intro q hq
            rcases hcases with hnil | ⟨rest2, hrr, hall⟩
            · subst hnil
              cases hq
            · subst hrr
              cases hq with
              | head => rfl
              | tail _ hq2 => exact hall q hq2
    · rw [if_neg h1]
      exact ⟨[req], by simp, Or.inr ⟨[], rfl, by simp⟩⟩

/-- C4: in the blob redirect loop every request after the first — i.e.
every request issued to a redirect target — is built with a fresh empty
header set, so it never carries the client Authorization header, whatever
the redirect chain, options and initial (authenticated) headers were. -/
theorem C4_redirect_requests_unauthenticated (env : Nat → RespSpec)
    (resolve : String → String → String) (fr : Option Bool) (mr : Option Nat)
    (path : String) (headers : Option (List (String × String))) :
    ∀ q ∈ (_makeHttpRequest env resolve fr mr path headers).reqs.tail,
      q.headers = some [] ∧ ∀ v : String, ("authorization", v) ∉ q.headers.getD [] := by
  intro q hq
  obtain ⟨rest, hr, hcases⟩ := makeHttpLoop_reqs_shape env resolve (fr.getD true) (mr.getD 3)
    (mr.getD 3) 0 ⟨path, headers⟩ [] []
  have hreqs : (_makeHttpRequest env resolve fr mr path headers).reqs = rest := by
    unfold _makeHttpRequest
    simpa using hr
  rw [hreqs] at hq
  rcases hcases with hnil | ⟨rest2, hrr, hall⟩
  · subst hnil
    cases hq
  · subst hrr
    simp only [List.tail_cons] at hq
    have hh := hall q hq
    refine ⟨hh, ?_⟩
    intro v hv
    rw [hh] at hv
    cases hv

/-- C4 witness: the theorem applied to a one-redirect chain issued by an
authenticated client. -/
theorem C4_witness :
    (BlobReq.mk "https://cdn.example/blob" (some [])).headers = some [] ∧
    ∀ v : String, ("authorization", v) ∉ (BlobReq.mk "https://cdn.example/blob" (some [])).headers.getD [] :=
  C4_redirect_requests_unauthenticated chain1Env (fun loc _ => loc) none none
    "/v2/r/blobs/sha256:d" (some [("authorization", "Bearer secret")])
    (BlobReq.mk "https://cdn.example/blob" (some [])) (by decide)

/-- Behaviour of the redirect loop on a chain of `n` redirects followed by
a success: within the remaining iteration budget the loop returns all
responses in order; once the budget is spent it fails with the
too-many-redirects error even though the next response would have been the
success. -/
theorem makeHttpLoop_chain (env : Nat → RespSpec) (resolve : String → String → String)
    (mr : Nat) :
    ∀ fuel n idx req accReqs accRess,
      (∀ j, j < n → (env (idx + j)).status = 302 ∧ (env (idx + j)).location.isSome) →
      (env (idx + n)).status = 200 →
      (n < fuel →
        (makeHttpLoop env resolve true mr fuel idx req accReqs accRess).outcome = .ok ∧
        (makeHttpLoop env resolve true mr fuel idx req accReqs accRess).ress =
          accRess ++ envSlice env idx (n + 1)) ∧
      (fuel ≤ n →
        (makeHttpLoop env resolve true mr fuel idx req accReqs accRess).outcome =
          .tooManyRedirects mr) := by
  intro fuel
  induction fuel with
  | zero =>
    intro n idx req accReqs accRess hred hfin
    exact ⟨fun h => absurd h (by omega), fun _ => by simp [makeHttpLoop]⟩
  | succ fuel ih =>
    intro n idx req accReqs accRess hred hfin
    cases n with
    | zero =>
      rw [Nat.add_zero] at hfin
      constructor
      · intro _
        unfold makeHttpLoop
        rw [if_pos (by rw [hfin]; simp)]
        rw [if_neg (by simp)]
        rw [if_pos (by rw [hfin]; simp)]
        exact ⟨rfl, by simp [envSlice]⟩
      · intro hle
        omega
    | succ n' =>
      obtain ⟨h302, hloc⟩ := hred 0 (by omega)
      rw [Nat.add_zero] at h302 hloc
      obtain ⟨loc, hloc2⟩ := Option.isSome_iff_exists.mp hloc
      have hred' : ∀ j, j < n' →
          (env (idx + 1 + j)).status = 302 ∧ (env (idx + 1 + j)).location.isSome := by
        intro j hj
        have h := hred (j + 1) (by omega)
        rwa [show idx + (j + 1) = idx + 1 + j by omega] at h
      have hfin' : (env (idx + 1 + n')).status = 200 := by
        have h := hfin
        rwa [show idx + (n' + 1) = idx + 1 + n' by omega] at h
      have IH := ih n' (idx + 1) ⟨resolve loc req.path, some []⟩
        (accReqs ++ [req]) (accRess ++ [env idx]) hred' hfin'
      unfold makeHttpLoop
      rw [if_pos (by rw [h302]; simp)]
      rw [if_neg (by simp)]
      rw [if_neg (fun hc => hc (Or.inl h302))]
      rw [hloc2]
      dsimp only
      constructor
      · intro hlt
        refine ⟨(IH.1 (by omega)).1, ?_⟩
        rw [(IH.1 (by omega)).2]
        show accRess ++ [env idx] ++ envSlice env (idx + 1) (n' + 1) =
          accRess ++ envSlice env idx (n' + 1 + 1)
        rw [show envSlice env idx (n' + 1 + 1) = env idx :: envSlice env (idx + 1) (n' + 1) from rfl]
        simp
      · intro hle
        exact IH.2 (by omega)

/-- C5 counterexample: a chain of exactly 3 redirect responses followed by
an available success is not followed to completion — with the default
`maxRedirects = 3` bound (which counts issued requests, not followed
redirects) the loop throws the maximum-redirects error after the third
redirect response instead of issuing the fourth request that would have
returned the success, refuting the reading that a redirect count of up to
3 is within the bound. -/
theorem C5_counterexample :
    (_makeHttpRequest chain3Env (fun loc _ => loc) none none
        "/v2/r/blobs/sha256:d" (some [("authorization", "Bearer t")])).outcome =
      LoopOutcome.tooManyRedirects 3 ∧
    (chain3Env 3).status = 200 ∧
    (∀ j, j < 3 → (chain3Env j).status = 302 ∧ (chain3Env j).location.isSome) :=
  ⟨rfl, rfl, by decide⟩

/-- C5 (amended): with the default bound the loop issues at most 3
requests, so it follows at most 2 redirects: a chain of `k ≤ 2` redirect
responses followed by a success returns the full ordered list of all
`k + 1` responses, while a chain of 3 or more redirect responses raises
the fatal `maximum number of redirects (3) hit` error — even when
following the third redirect would have succeeded. -/
theorem C5_amended (env : Nat → RespSpec) (resolve : String → String → String)
    (path : String) (headers : Option (List (String × String))) (k : Nat)
    (hred : ∀ j, j < k → (env j).status = 302 ∧ (env j).location.isSome)
    (hfin : (env k).status = 200) :
    (k < 3 →
      (_makeHttpRequest env resolve none none path headers).outcome = LoopOutcome.ok ∧
      (_makeHttpRequest env resolve none none path headers).ress = envSlice env 0 (k + 1)) ∧
    (3 ≤ k →
      (_makeHttpRequest env resolve none none path headers).outcome =
        LoopOutcome.tooManyRedirects 3) := by
  have h := makeHttpLoop_chain env resolve 3 3 k 0 ⟨path, headers⟩ [] []
    (by simpa using hred) (by simpa using hfin)
  unfold _makeHttpRequest
  simpa using h

/-- C5 witness: the amended theorem at a concrete one-redirect chain. -/
theorem C5_witness :
    (_makeHttpRequest chain1Env (fun loc _ => loc) none none "/v2/r/blobs/sha256:d" none).outcome =
      LoopOutcome.ok ∧
    (_makeHttpRequest chain1Env (fun loc _ => loc) none none "/v2/r/blobs/sha256:d" none).ress =
      envSlice chain1Env 0 2 :=
  (C5_amended chain1Env (fun loc _ => loc) "/v2/r/blobs/sha256:d" none 1
    (fun j hj => by
      have : j = 0 := by omega
      subst this
      exact ⟨rfl, rfl⟩)
    rfl).1 (by omega)

/-- C6: starting from a not-logged-in client, two `login` calls with the
same (non-empty) scope string perform the network login sequence exactly
once — the first call performs it, the second is a cache hit returning
immediately — while a call with a different scope string than the cached
one performs a fresh full login. -/
theorem C6_login_cache (btoa : String → String) (netLogin : String → AuthInfoV)
    (remoteName : String) (clientScopes : List String) (st0 : LoginState)
    (h0 : st0.loggedIn = false) (s s2 : String) (hs : s ≠ "") (hs2 : s2 ≠ "")
    (hne : s2 ≠ s) :
    (clientLogin btoa netLogin remoteName clientScopes st0 (some s)).2 = true ∧
    (clientLogin btoa netLogin remoteName clientScopes
        (clientLogin btoa netLogin remoteName clientScopes st0 (some s)).1 (some s)).2 = false ∧
    (clientLogin btoa netLogin remoteName clientScopes
        (clientLogin btoa netLogin remoteName clientScopes st0 (some s)).1 (some s2)).2 = true := by
  have hfirst : clientLogin btoa netLogin remoteName clientScopes st0 (some s) =
      ({ loggedIn := true, loggedInScope := some s, authInfo := some (netLogin s),
         headers := _setAuthHeaderFromAuthInfo btoa st0.headers (netLogin s) }, true) := by
    unfold clientLogin
    dsimp only
    rw [if_neg hs]
    unfold clientLoginScoped
    rw [if_neg (by rw [h0]; simp)]
  refine ⟨by rw [hfirst], ?_, ?_⟩
  · rw [hfirst]
    unfold clientLogin
    dsimp only
    rw [if_neg hs]
    unfold clientLoginScoped
    rw [if_pos (by simp)]
  · rw [hfirst]
    unfold clientLogin
    dsimp only
    rw [if_neg hs2]
    unfold clientLoginScoped
    rw [if_neg (fun hc => hne (Option.some.inj hc.2).symm)]

/-- C6 witness: the theorem at concrete scopes on a fresh client state. -/
theorem C6_witness :
    (clientLogin (fun x => x) (fun _ => { token := some "t" }) "library/nginx" ["pull"]
        ⟨false, none, none, []⟩ (some "repository:library/nginx:pull")).2 = true ∧
    (clientLogin (fun x => x) (fun _ => { token := some "t" }) "library/nginx" ["pull"]
        (clientLogin (fun x => x) (fun _ => { token := some "t" }) "library/nginx" ["pull"]
          ⟨false, none, none, []⟩ (some "repository:library/nginx:pull")).1
        (some "repository:library/nginx:pull")).2 = false ∧
    (clientLogin (fun x => x) (fun _ => { token := some "t" }) "library/nginx" ["pull"]
        (clientLogin (fun x => x) (fun _ => { token := some "t" }) "library/nginx" ["pull"]
          ⟨false, none, none, []⟩ (some "repository:library/nginx:pull")).1
        (some "repository:library/nginx:pull,push")).2 = true :=
  C6_login_cache (fun x => x) (fun _ => { token := some "t" }) "library/nginx" ["pull"]
    ⟨false, none, none, []⟩ rfl "repository:library/nginx:pull"
    "repository:library/nginx:pull,push" (by decide) (by decide) (by decide)

/-- C7 counterexample: under the client default configuration
(`maxSchemaVersion` coerced to 1, no OCI option exists in this client) the
Accept header sent with the manifest request is the transport default
`application/json` — it does not list the Schema-V2 manifest media type,
refuting the claimed always-sent preference list. -/
theorem C7_counterexample :
    getManifestSentAccept none (constructorMaxSchemaVersion none) false = "application/json" ∧
    "application/json" ≠ MEDIATYPE_MANIFEST_V2 := ⟨rfl, by decide⟩

/-- C7 (amended): only when the effective maxSchemaVersion is 2 does
`getManifest` build an Accept preference list, which is, in order, the
Schema-V2 manifest media type then — exactly when manifest-list acceptance
is requested — the manifest-list media type; with any other
maxSchemaVersion the transport default `application/json` is sent; no OCI
media type ever appears (the client has no OCI acceptance option). -/
theorem C7_amended (maxS : Nat) (lists : Bool) :
    (maxS = 2 → getManifestSentAccept none maxS lists =
      String.intercalate ", " ([MEDIATYPE_MANIFEST_V2] ++
        (if lists then [MEDIATYPE_MANIFEST_LIST_V2] else []))) ∧
    (maxS ≠ 2 → getManifestSentAccept none maxS lists = "application/json") ∧
    (∀ part ∈ getManifestAcceptList none lists,
      part ≠ "application/vnd.oci.image.manifest.v1+json" ∧
      part ≠ "application/vnd.oci.image.index.v1+json") := by
  refine ⟨?_, ?_, ?_⟩
  · intro h2
    subst h2
    cases lists with
    | false => rfl
    | true => rfl
  · intro hne
    unfold getManifestSentAccept getManifestAcceptHeader sentAcceptHeader
    rw [if_neg hne]
    rfl
  · cases lists with
    | false => decide
    | true => decide

/-- C7 witness: the amended theorem at the schema-2 configuration with
manifest lists accepted. -/
theorem C7_witness :
    getManifestSentAccept none 2 true =
      String.intercalate ", " ([MEDIATYPE_MANIFEST_V2] ++
        (if true then [MEDIATYPE_MANIFEST_LIST_V2] else [])) :=
  (C7_amended 2 true).1 rfl
